import Mathlib

/-!
Shallow embedding of the data-transformation pipeline of `src/dashboard.py`
(the Gaza daily-deaths dashboard).  Pandas columns are modelled as Lean
lists, dataframe rows as structures, and missing values (`NaN` / `NaT`) as
`Option`.  All definitions below are translated from the source script;
the few places where a pandas library call is modelled say so in their
doc comments.
-/

/-- Sex of one decedent record of the killed-in-gaza dataset: the source
stores the strings `'m'` / `'f'`, with a missing field modelled as
`unknown` (dashboard.py lines 45-47 default a missing column to `None`). -/
inductive Sex where
  | m
  | f
  | unknown
  deriving DecidableEq, Repr

/-- One row of `df_killed`: `age` is `none` when the field is missing
(pandas `NaN`, tested by `pd.isna`). -/
structure KilledRecord where
  age : Option Int
  sex : Sex
  deriving DecidableEq, Repr

/-- The four demographic buckets produced by `categorize`
(dashboard.py lines 161-171). -/
inductive Category where
  | Children
  | Women
  | Seniors
  | Others
  deriving DecidableEq, Repr

/-- `categorize(row)` (dashboard.py lines 161-171): unknown age first, then
age below 18, then female sex, then age at least 60, else `Others`. -/
def categorize (r : KilledRecord) : Category :=
  match r.age with
  | none => Category.Others
  | some a =>
    if a < 18 then Category.Children
    else if r.sex = Sex.f then Category.Women
    else if 60 ≤ a then Category.Seniors
    else Category.Others

/-- Pandas `Series.diff()` on an all-present integer column: entry 0 is
`NaN` (`none` here), entry `i > 0` is `x[i] - x[i-1]`
(dashboard.py line 81). -/
def pdDiff (xs : List Int) : List (Option Int) :=
  (List.range xs.length).map fun i =>
    if i = 0 then none else some (xs.getD i 0 - xs.getD (i - 1) 0)

/-- Pandas `Series.fillna(other)` elementwise: a `NaN` at position `i` is
replaced by `other[i]` (dashboard.py line 81). -/
def pdFillna (ys : List (Option Int)) (xs : List Int) : List Int :=
  List.zipWith (fun o x => o.getD x) ys xs

/-- `daily['deaths'] = daily['killed_cum'].diff().fillna(daily['killed_cum'])`
(dashboard.py line 81): the incremental-deaths column derived from the
cumulative column. -/
def dailyDeaths (xs : List Int) : List Int :=
  pdFillna (pdDiff xs) xs

lemma dailyDeaths_length (xs : List Int) : (dailyDeaths xs).length = xs.length := by
  simp [dailyDeaths, pdFillna, pdDiff]

lemma pdDiff_getElem? (xs : List Int) (i : Nat) (hi : i < xs.length) :
    (pdDiff xs)[i]? =
      some (if i = 0 then none else some (xs.getD i 0 - xs.getD (i - 1) 0)) := by
  simp [pdDiff, List.getElem?_map, List.getElem?_range hi]

lemma dailyDeaths_getElem? (xs : List Int) (i : Nat) (hi : i < xs.length) :
    (dailyDeaths xs)[i]? =
      some (if i = 0 then xs.getD 0 0 else xs.getD i 0 - xs.getD (i - 1) 0) := by
  rw [dailyDeaths, pdFillna, List.getElem?_zipWith, pdDiff_getElem? xs i hi,
    List.getElem?_eq_getElem hi]
  by_cases h : i = 0
  · subst h
    simp [List.getD_eq_getElem?_getD, List.getElem?_eq_getElem hi]
  · simp [h, List.getD_eq_getElem?_getD, List.getElem?_eq_getElem hi]

/-- C1: for every non-empty cumulative series, the derived incremental
series has the same length, its first entry equals the first cumulative
value, and every later entry is the difference of consecutive cumulative
values, with negative differences passed through unclamped. -/
theorem dailyDeaths_spec (xs : List Int) (hne : xs ≠ []) :
    (dailyDeaths xs).length = xs.length ∧
    (dailyDeaths xs).getD 0 0 = xs.getD 0 0 ∧
    ∀ i, 0 < i → i < xs.length →
      (dailyDeaths xs).getD i 0 = xs.getD i 0 - xs.getD (i - 1) 0 := by
  have hlen : 0 < xs.length := List.length_pos.mpr hne
  refine ⟨dailyDeaths_length xs, ?_, ?_⟩
  · rw [List.getD_eq_getElem?_getD, dailyDeaths_getElem? xs 0 hlen]
    simp
  · intro i hi0 hi
    rw [List.getD_eq_getElem?_getD, dailyDeaths_getElem? xs i hi]
    simp [Nat.pos_iff_ne_zero.mp hi0]

/-- Witness for C1 at the spec's example: cumulatives `[10, 15, 13]` give
incremental deaths `[10, 5, -2]` (negative delta preserved). -/
theorem dailyDeaths_spec_witness :
    (dailyDeaths [10, 15, 13]).length = 3 ∧
    (dailyDeaths [10, 15, 13]).getD 0 0 = 10 ∧
    (dailyDeaths [10, 15, 13]).getD 1 0 = 5 ∧
    (dailyDeaths [10, 15, 13]).getD 2 0 = -2 := by
  have h := dailyDeaths_spec [10, 15, 13] (by decide)
  exact ⟨h.1, h.2.1, h.2.2 1 (by decide) (by decide), h.2.2 2 (by decide) (by decide)⟩

/-- C2: `categorize` is total and deterministic (exactly one category per
record) and follows the fixed priority order: unknown age, then age < 18,
then female, then age ≥ 60, else `Others`; in particular a ten-year-old
female record is `Children`, not `Women`. -/
theorem categorize_total_priority (r : KilledRecord)
    (_hdom : ∀ a, r.age = some a → 0 ≤ a) :
    (∃! c, categorize r = c) ∧
    (r.age = none → categorize r = Category.Others) ∧
    (∀ a, r.age = some a → a < 18 → categorize r = Category.Children) ∧
    (∀ a, r.age = some a → 18 ≤ a → r.sex = Sex.f →
      categorize r = Category.Women) ∧
    (∀ a, r.age = some a → r.sex ≠ Sex.f → 60 ≤ a →
      categorize r = Category.Seniors) ∧
    (∀ a, r.age = some a → 18 ≤ a → a < 60 → r.sex ≠ Sex.f →
      categorize r = Category.Others) ∧
    categorize ⟨some 10, Sex.f⟩ = Category.Children := by
  refine ⟨⟨categorize r, rfl, fun c hc => hc.symm⟩, ?_, ?_, ?_, ?_, ?_, by decide⟩
  · intro h
    simp [categorize, h]
  · intro a ha hlt
    simp [categorize, ha, hlt]
  · intro a ha h18 hf
    simp [categorize, ha, hf, Int.not_lt.mpr h18]
  · intro a ha hf h60
    have h18 : (18 : Int) ≤ a := le_trans (by decide) h60
    simp [categorize, ha, hf, Int.not_lt.mpr h18, h60]
  · intro a ha h18 h60 hf
    simp [categorize, ha, hf, Int.not_lt.mpr h18, Int.not_le.mpr h60]

/-- Witness for C2 at the spec's examples: ages/sexes
`(5, m), (unknown, f), (65, m), (40, f)` map to
`Children, Others, Seniors, Women`, and `(10, f)` maps to `Children`. -/
theorem categorize_total_priority_witness :
    categorize ⟨some 10, Sex.f⟩ = Category.Children ∧
    categorize ⟨some 5, Sex.m⟩ = Category.Children ∧
    categorize ⟨none, Sex.f⟩ = Category.Others ∧
    categorize ⟨some 65, Sex.m⟩ = Category.Seniors ∧
    categorize ⟨some 40, Sex.f⟩ = Category.Women := by
  have h10 := categorize_total_priority ⟨some 10, Sex.f⟩
    (fun a ha => by injection ha with h; omega)
  have h5 := categorize_total_priority ⟨some 5, Sex.m⟩
    (fun a ha => by injection ha with h; omega)
  have hn := categorize_total_priority ⟨none, Sex.f⟩ (fun a ha => by cases ha)
  have h65 := categorize_total_priority ⟨some 65, Sex.m⟩
    (fun a ha => by injection ha with h; omega)
  have h40 := categorize_total_priority ⟨some 40, Sex.f⟩
    (fun a ha => by injection ha with h; omega)
  exact ⟨h10.2.2.2.2.2.2, h5.2.2.1 5 rfl (by decide), hn.2.1 rfl,
    h65.2.2.2.2.1 65 rfl (by decide) (by decide),
    h40.2.2.2.1 40 rfl (by decide) rfl⟩

/-- Pandas `Series.rolling(window=w, min_periods=1).mean()` (dashboard.py
line 82): at position `i`, the mean of the trailing window of up to `w`
values ending at `i`.  `i + 1 - w` is truncated ℕ subtraction, i.e.
`max 0 (i - w + 1)`, so the window shrinks at the start of the series
instead of being undefined there. -/
def rollingMeanMin1 (w : Nat) (xs : List ℚ) : List ℚ :=
  (List.range xs.length).map fun i =>
    ((xs.take (i + 1)).drop (i + 1 - w)).sum
      / (((xs.take (i + 1)).drop (i + 1 - w)).length : ℚ)

lemma sum_drop_take (xs : List ℚ) (lo n : Nat) (hlo : lo ≤ n) (hn : n ≤ xs.length) :
    ((xs.take n).drop lo).sum = ∑ j ∈ Finset.Ico lo n, xs.getD j 0 := by
  induction n with
  | zero =>
    have h0 : lo = 0 := Nat.le_zero.mp hlo
    subst h0
    simp
  | succ n ih =>
    by_cases h : lo ≤ n
    · have hn' : n < xs.length := hn
      rw [List.take_succ, List.getElem?_eq_getElem hn']
      rw [List.drop_append_of_le_length (by simp [List.length_take]; omega)]
      rw [List.sum_append, ih h (Nat.le_of_lt hn'), Finset.sum_Ico_succ_top h]
      simp [List.getD_eq_getElem?_getD, List.getElem?_eq_getElem hn']
    · have heq : lo = n + 1 := by omega
      subst heq
      rw [List.drop_eq_nil_of_le (by simp [List.length_take])]
      simp

/-- C3: for every window size in `[1, 30]`, the moving average at position
`i` is the arithmetic mean of the series over indices
`max 0 (i - w + 1) .. i` — a trailing window that shrinks near the start
instead of failing — and with window size 1 the moving average equals the
series elementwise. -/
theorem rollingMean_trailing_window (w : Nat) (hw1 : 1 ≤ w) (hw30 : w ≤ 30)
    (xs : List ℚ) (i : Nat) (hi : i < xs.length) :
    ((i + 1 - w : Nat) : Int) = max 0 ((i : Int) - (w : Int) + 1) ∧
    (rollingMeanMin1 w xs).getD i 0
      = (∑ j ∈ Finset.Icc (i + 1 - w) i, xs.getD j 0)
        / ((i + 1 - (i + 1 - w) : Nat) : ℚ) ∧
    rollingMeanMin1 1 xs = xs := by
  refine ⟨by omega, ?_, ?_⟩
  · have h1 : (rollingMeanMin1 w xs)[i]? =
        some (((xs.take (i + 1)).drop (i + 1 - w)).sum
          / (((xs.take (i + 1)).drop (i + 1 - w)).length : ℚ)) := by
      simp [rollingMeanMin1, List.getElem?_map, List.getElem?_range hi]
    rw [List.getD_eq_getElem?_getD, h1, Option.getD_some]
    have hlen : ((xs.take (i + 1)).drop (i + 1 - w)).length = i + 1 - (i + 1 - w) := by
      rw [List.length_drop, List.length_take]
      omega
    rw [hlen, sum_drop_take xs (i + 1 - w) (i + 1) (by omega) hi,
      Nat.Ico_succ_right]
  · apply List.ext_getElem
    · simp [rollingMeanMin1]
    · intro j h1 h2
      simp only [rollingMeanMin1, List.getElem_map, List.getElem_range, Nat.add_sub_cancel]
      have hsum := sum_drop_take xs j (j + 1) (Nat.le_succ j) h2
      have hwl : ((xs.take (j + 1)).drop j).length = 1 := by
        rw [List.length_drop, List.length_take]
        omega
      rw [hsum, hwl, Finset.sum_Ico_succ_top (le_refl j)]
      simp [List.getD_eq_getElem?_getD, List.getElem?_eq_getElem h2]

/-- Witness for C3 at window 7 on the three-element series `[10, 5, -2]`:
at position 2 the window start is `max 0 (2 - 7 + 1) = 0` and the average
is the mean of all three values, and window 1 reproduces the series. -/
theorem rollingMean_trailing_window_witness :
    (1 ≤ 7 ∧ 7 ≤ 30 ∧ 2 < ([10, 5, -2] : List ℚ).length) ∧
    ((2 + 1 - 7 : Nat) : Int) = max 0 ((2 : Int) - (7 : Int) + 1) ∧
    (rollingMeanMin1 7 [10, 5, -2]).getD 2 0
      = (∑ j ∈ Finset.Icc (2 + 1 - 7) 2, ([10, 5, -2] : List ℚ).getD j 0)
        / ((2 + 1 - (2 + 1 - 7) : Nat) : ℚ) ∧
    rollingMeanMin1 1 [10, 5, -2] = ([10, 5, -2] : List ℚ) := by
  refine ⟨⟨by decide, by decide, by decide⟩, ?_⟩
  exact rollingMean_trailing_window 7 (by decide) (by decide) [10, 5, -2] 2 (by decide)

/-- One row of `df_casualties` after `load_data`: `report_date` is the
parsed date (`none` models pandas `NaT`, produced by
`pd.to_datetime(..., errors='coerce')` on an unparseable string); dates are
compared at day granularity, modelled as a ℕ day key. -/
structure CasReport where
  report_date : Option Nat
  killed_cum : Int
  injured_cum : Int
  deriving DecidableEq, Repr

/-- The casualties dataframe: its rows plus whether the `injured_cum`
column is present at all (`'injured_cum' in df_casualties.columns`,
dashboard.py line 155). -/
structure CasualtiesDF where
  rows : List CasReport
  hasInjuredCol : Bool
  deriving DecidableEq, Repr

/-- `total_latest = df_casualties['killed_cum'].max()` (dashboard.py
line 143); `none` models the `NaN` a pandas max returns on an empty
column. -/
def total_latest (df : CasualtiesDF) : Option Int :=
  (df.rows.map (·.killed_cum)).max?

/-- `children_count = df_killed[df_killed['age'] < 18].shape[0]`
(dashboard.py line 146); `NaN < 18` is `False` in pandas, so records with
unknown age do not count. -/
def children_count (ks : List KilledRecord) : Nat :=
  (ks.filter fun r =>
    match r.age with
    | some a => decide (a < 18)
    | none => false).length

/-- `men_count = df_killed[df_killed['sex'] == 'm'].shape[0]`
(dashboard.py line 149). -/
def men_count (ks : List KilledRecord) : Nat :=
  (ks.filter fun r => r.sex = Sex.m).length

/-- `women_count = df_killed[df_killed['sex'] == 'f'].shape[0]`
(dashboard.py line 152). -/
def women_count (ks : List KilledRecord) : Nat :=
  (ks.filter fun r => r.sex = Sex.f).length

/-- `injured_total = df_casualties['injured_cum'].max() if 'injured_cum'
in df_casualties.columns else 0` (dashboard.py line 155). -/
def injured_total (df : CasualtiesDF) : Option Int :=
  if df.hasInjuredCol then (df.rows.map (·.injured_cum)).max? else some 0

lemma max?_mem_le {α : Type} [LinearOrder α] {l : List α} {m : α}
    (h : l.max? = some m) : m ∈ l ∧ ∀ x ∈ l, x ≤ m := by
  have anti : Std.Antisymm (fun a b : α => a ≤ b) := ⟨fun h1 h2 => le_antisymm h1 h2⟩
  exact (List.max?_eq_some_iff (fun a => le_refl a) (fun a b => max_choice a b)
    (fun _ _ _ => max_le_iff)).mp h

lemma min?_mem_le {α : Type} [LinearOrder α] {l : List α} {m : α}
    (h : l.min? = some m) : m ∈ l ∧ ∀ x ∈ l, m ≤ x := by
  have anti : Std.Antisymm (fun a b : α => a ≤ b) := ⟨fun h1 h2 => le_antisymm h1 h2⟩
  exact (List.min?_eq_some_iff (fun a => le_refl a) (fun a b => min_choice a b)
    (fun _ _ _ => le_min_iff)).mp h

lemma max?_isSome_of_ne_nil {α : Type} [LinearOrder α] {l : List α} (h : l ≠ []) :
    ∃ m, l.max? = some m := by
  cases hm : l.max? with
  | none => exact absurd (List.max?_eq_none_iff.mp hm) h
  | some m => exact ⟨m, rfl⟩

/-- C4: `totalDeaths` is the maximum cumulative-killed value over all
reports; `childrenCount` counts records with known age below 18;
`menCount` / `womenCount` count records with sex `m` / `f`; and
`cumulativeInjured` is the maximum cumulative-injured value, or 0 when the
column is absent from the dataset entirely. -/
theorem summarize_metrics_spec (df : CasualtiesDF) (ks : List KilledRecord)
    (hne : df.rows ≠ []) :
    (∃ m, total_latest df = some m ∧ m ∈ df.rows.map (·.killed_cum) ∧
      ∀ x ∈ df.rows.map (·.killed_cum), x ≤ m) ∧
    children_count ks = ks.countP (fun r => (r.age.map fun a => decide (a < 18)).getD false) ∧
    men_count ks = ks.countP (fun r => r.sex = Sex.m) ∧
    women_count ks = ks.countP (fun r => r.sex = Sex.f) ∧
    (df.hasInjuredCol = true →
      ∃ m, injured_total df = some m ∧ m ∈ df.rows.map (·.injured_cum) ∧
        ∀ x ∈ df.rows.map (·.injured_cum), x ≤ m) ∧
    (df.hasInjuredCol = false → injured_total df = some 0) := by
  refine ⟨?_, ?_, ?_, ?_, ?_, ?_⟩
  · have hne' : df.rows.map (·.killed_cum) ≠ [] := by
      simpa using hne
    obtain ⟨m, hm⟩ := max?_isSome_of_ne_nil hne'
    exact ⟨m, hm, (max?_mem_le hm).1, (max?_mem_le hm).2⟩
  · rw [children_count, List.countP_eq_length_filter]
    congr 1
    apply List.filter_congr
    intro r _
    cases r.age <;> simp
  · rw [men_count, List.countP_eq_length_filter]
  · rw [women_count, List.countP_eq_length_filter]
  · intro hcol
    have hne' : df.rows.map (·.injured_cum) ≠ [] := by
      simpa using hne
    obtain ⟨m, hm⟩ := max?_isSome_of_ne_nil hne'
    refine ⟨m, ?_, (max?_mem_le hm).1, (max?_mem_le hm).2⟩
    rw [injured_total, hcol]
    simpa using hm
  · intro hcol
    rw [injured_total, hcol]
    simp

/-- Concrete two-report dataframe used to witness C4. -/
def df4 : CasualtiesDF :=
  ⟨[⟨some 1, 10, 3⟩, ⟨some 2, 15, 7⟩], true⟩

/-- Concrete record list used to witness C4. -/
def ks4 : List KilledRecord :=
  [⟨some 5, Sex.m⟩, ⟨none, Sex.f⟩, ⟨some 65, Sex.m⟩, ⟨some 40, Sex.f⟩]

/-- Witness for C4 on a concrete snapshot with two reports and four
records. -/
theorem summarize_metrics_spec_witness :
    df4.rows ≠ [] ∧
    ((∃ m, total_latest df4 = some m ∧ m ∈ df4.rows.map (·.killed_cum) ∧
      ∀ x ∈ df4.rows.map (·.killed_cum), x ≤ m) ∧
    children_count ks4
      = ks4.countP (fun r => (r.age.map fun a => decide (a < 18)).getD false) ∧
    men_count ks4 = ks4.countP (fun r => r.sex = Sex.m) ∧
    women_count ks4 = ks4.countP (fun r => r.sex = Sex.f) ∧
    (df4.hasInjuredCol = true →
      ∃ m, injured_total df4 = some m ∧ m ∈ df4.rows.map (·.injured_cum) ∧
        ∀ x ∈ df4.rows.map (·.injured_cum), x ≤ m) ∧
    (df4.hasInjuredCol = false → injured_total df4 = some 0)) :=
  ⟨by decide, summarize_metrics_spec df4 ks4 (by decide)⟩

/-- The five metric cards of the dashboard (dashboard.py lines 143-156). -/
structure SummaryMetrics where
  totalDeaths : Option Int
  childrenCount : Nat
  menCount : Nat
  womenCount : Nat
  cumulativeInjured : Option Int
  deriving DecidableEq, Repr

/-- The metrics block of the script (dashboard.py lines 143-156): every
metric reads the unfiltered `df_killed` / `df_casualties`. -/
def summarize (ks : List KilledRecord) (df : CasualtiesDF) : SummaryMetrics :=
  { totalDeaths := total_latest df
    childrenCount := children_count ks
    menCount := men_count ks
    womenCount := women_count ks
    cumulativeInjured := injured_total df }

/-- The boolean date mask of dashboard.py lines 73-74 for one row:
`(report_date.dt.date >= start) & (report_date.dt.date <= end)`; both
comparisons are `False` in pandas when the date is `NaT`. -/
def dateInRange (d : Option Nat) (s e : Nat) : Bool :=
  match d with
  | none => false
  | some x => decide (s ≤ x) && decide (x ≤ e)

/-- `df_casualties_filtered` (dashboard.py lines 72-75): keep, in order,
the rows whose date lies between the slider bounds inclusive. -/
def filterReports (rs : List CasReport) (s e : Nat) : List CasReport :=
  rs.filter fun r => dateInRange r.report_date s e

/-- Everything one render pass of the script derives from a snapshot:
the filtered reports, the daily-deaths series and its moving average
(computed from the filtered rows), and the summary metrics (computed from
the unfiltered snapshot). -/
structure DashboardView where
  filtered : List CasReport
  deaths : List Int
  movingAvg : List ℚ
  summary : SummaryMetrics
  deriving DecidableEq, Repr

/-- One render pass of dashboard.py (lines 62-156) for a given snapshot
(`ks`, `df`), moving-average window `w` and slider bounds `s`, `e`. -/
def renderDashboard (ks : List KilledRecord) (df : CasualtiesDF)
    (w : Nat) (s e : Nat) : DashboardView :=
  let filtered := filterReports df.rows s e
  let d := dailyDeaths (filtered.map (·.killed_cum))
  { filtered := filtered
    deaths := d
    movingAvg := rollingMeanMin1 w (d.map fun z => (z : ℚ))
    summary := summarize ks df }

/-- C5: the summary metrics are computed over the full, unfiltered
snapshot — two render passes over the same snapshot with any two
date-range filters produce identical summary metrics. -/
theorem summary_independent_of_filter (ks : List KilledRecord)
    (df : CasualtiesDF) (w : Nat) (s1 e1 s2 e2 : Nat) :
    (renderDashboard ks df w s1 e1).summary
      = (renderDashboard ks df w s2 e2).summary := rfl

/-- `min_date = df_casualties['report_date'].min().date()` (dashboard.py
line 62): pandas `min` skips `NaT`; `none` models the failure of `.date()`
when no date is known at all. -/
def minDate (rs : List CasReport) : Option Nat :=
  (rs.filterMap (·.report_date)).min?

/-- `max_date = df_casualties['report_date'].max().date()` (dashboard.py
line 63): pandas `max` skips `NaT`. -/
def maxDate (rs : List CasReport) : Option Nat :=
  (rs.filterMap (·.report_date)).max?

/-- Two reports, the second with an unparseable date kept as `NaT`:
the counterexample input for C6. -/
def rs6 : List CasReport := [⟨some 5, 10, 0⟩, ⟨none, 15, 0⟩]

/-- Counterexample to C6: on a report sequence containing a `NaT` date,
filtering by the full `[min_date, max_date]` range does not return the
original sequence — the `NaT` row is dropped. -/
theorem filter_roundtrip_counterexample :
    minDate rs6 = some 5 ∧ maxDate rs6 = some 5 ∧
    filterReports rs6 5 5 ≠ rs6 := by decide

/-- C6 (amended): when every report's date is known (non-`NaT`), filtering
by `[min_date, max_date]` returns the original sequence unchanged, in the
original order. -/
theorem filter_roundtrip_all_dates_known (rs : List CasReport)
    (hall : ∀ r ∈ rs, r.report_date.isSome = true)
    (dmin dmax : Nat) (hmin : minDate rs = some dmin)
    (hmax : maxDate rs = some dmax) :
    filterReports rs dmin dmax = rs := by
  rw [filterReports, List.filter_eq_self]
  intro r hr
  obtain ⟨d, hd⟩ := Option.isSome_iff_exists.mp (hall r hr)
  have hdmem : d ∈ rs.filterMap (·.report_date) :=
    List.mem_filterMap.mpr ⟨r, hr, hd⟩
  have hlo := (min?_mem_le hmin).2 d hdmem
  have hhi := (max?_mem_le hmax).2 d hdmem
  simp [dateInRange, hd, hlo, hhi]

/-- Two reports with known dates 3 and 7: the witness input for C6. -/
def rsW6 : List CasReport := [⟨some 3, 1, 0⟩, ⟨some 7, 2, 0⟩]

/-- Witness for C6 (amended) on two reports with known dates 3 and 7. -/
theorem filter_roundtrip_witness :
    (∀ r ∈ rsW6, r.report_date.isSome = true) ∧
    minDate rsW6 = some 3 ∧ maxDate rsW6 = some 7 ∧
    filterReports rsW6 3 7 = rsW6 :=
  ⟨by decide, by decide, by decide,
    filter_roundtrip_all_dates_known rsW6 (by decide) 3 7 (by decide) (by decide)⟩

/-- The error the spec prescribes for an inverted date range. -/
inductive FilterError where
  | InvalidRange
  deriving DecidableEq, Repr

/-- Modelled from the spec: `filterByDateRange` is required to fail with
`InvalidRange` when `start > end` and to filter otherwise.  The script
itself has no such error path, so this definition exists only to compare
the spec's demand with the script's actual filter. -/
def filterByDateRangeSpec (rs : List CasReport) (s e : Nat) :
    Except FilterError (List CasReport) :=
  if e < s then Except.error FilterError.InvalidRange
  else Except.ok (filterReports rs s e)

/-- One report with a known date: the counterexample input for C7. -/
def rs7 : List CasReport := [⟨some 1, 10, 0⟩]

/-- Counterexample to C7: with start 3 > end 2 on a non-empty input the
spec demands an `InvalidRange` failure, but the script's filter runs
normally and produces the (empty) filtered result — no error exists in the
code. -/
theorem invalid_range_counterexample :
    filterByDateRangeSpec rs7 3 2 = Except.error FilterError.InvalidRange ∧
    filterReports rs7 3 2 = [] :=
  ⟨rfl, by decide⟩

/-- C7 (amended): when start > end the script's filter silently returns
the empty sequence (no report can satisfy both inclusive bounds); no
`InvalidRange` error is raised because none exists in the code. -/
theorem filter_start_after_end_empty (rs : List CasReport) (s e : Nat)
    (h : e < s) : filterReports rs s e = [] := by
  rw [filterReports, List.filter_eq_nil_iff]
  intro r _
  cases hd : r.report_date with
  | none => simp [dateInRange, hd]
  | some x =>
    simp only [dateInRange, hd, Bool.and_eq_true, decide_eq_true_eq, not_and]
    omega

/-- Witness for C7 (amended): start 3 > end 2 empties the filter on a
concrete non-empty input. -/
theorem filter_start_after_end_empty_witness :
    2 < 3 ∧ filterReports rs7 3 2 = [] :=
  ⟨by decide, filter_start_after_end_empty rs7 3 2 (by decide)⟩

/-- C10: every report in the output of the date-range filter has a known
(non-`NaT`) date, for every choice of bounds: a report whose date failed
to parse is excluded because both inclusive bound comparisons are false
for an unknown date. -/
theorem filtered_dates_known (rs : List CasReport) (s e : Nat)
    (r : CasReport) (hr : r ∈ filterReports rs s e) :
    r.report_date.isSome = true := by
  rw [filterReports] at hr
  have hp : dateInRange r.report_date s e = true := by
    simpa using (List.mem_filter.mp hr).2
  cases hd : r.report_date with
  | none => rw [hd] at hp; simp [dateInRange] at hp
  | some x => rfl

/-- Witness for C10: a report with known date 5 is in the filtered output
for bounds `[0, 9]` and indeed has a known date. -/
theorem filtered_dates_known_witness :
    (⟨some 5, 10, 0⟩ : CasReport) ∈ filterReports [⟨some 5, 10, 0⟩] 0 9 ∧
    (⟨some 5, 10, 0⟩ : CasReport).report_date.isSome = true :=
  ⟨by decide,
    filtered_dates_known [⟨some 5, 10, 0⟩] 0 9 ⟨some 5, 10, 0⟩ (by decide)⟩

/-- One raw row of the casualties JSON before coercion: the date still a
string (a character list here). -/
structure RawCasRow where
  report_date : List Char
  killed_cum : Int
  injured_cum : Int
  deriving DecidableEq, Repr

/-- Split a character list on the ISO date separator character. -/
def splitDash : List Char → List (List Char)
  | [] => [[]]
  | c :: cs =>
    if c = '-' then [] :: splitDash cs
    else
      match splitDash cs with
      | [] => [[c]]
      | g :: gs => (c :: g) :: gs

/-- Value of one decimal digit character, `none` for a non-digit. -/
def digitVal? (c : Char) : Option Nat :=
  if '0' ≤ c ∧ c ≤ '9' then some (c.toNat - '0'.toNat) else none

def decDigitsAux : List Char → Nat → Option Nat
  | [], acc => some acc
  | c :: cs, acc =>
    match digitVal? c with
    | some d => decDigitsAux cs (acc * 10 + d)
    | none => none

/-- A non-empty all-digit character list as a number, else `none`. -/
def decDigits? : List Char → Option Nat
  | [] => none
  | c :: cs => decDigitsAux (c :: cs) 0

/-- Models `pd.to_datetime(..., errors='coerce')` on one date string
(dashboard.py line 50) for the ISO `YYYY-MM-DD` format the dataset uses:
a valid date becomes a comparable day key `y * 10000 + m * 100 + d`, an
unparseable string becomes `none` (pandas `NaT`).  Pandas accepts more
formats than this; success versus coercion-to-`NaT` is what matters
here. -/
def parseDate (s : List Char) : Option Nat :=
  match splitDash s with
  | [y, m, d] =>
    match decDigits? y, decDigits? m, decDigits? d with
    | some yn, some mn, some dn =>
      if 1 ≤ mn ∧ mn ≤ 12 ∧ 1 ≤ dn ∧ dn ≤ 31 then
        some (yn * 10000 + mn * 100 + dn)
      else none
    | _, _, _ => none
  | _ => none

/-- The casualties half of `load_data` (dashboard.py lines 49-50): every
raw row is kept; its date string is coerced, unparseable dates becoming
`none` (`NaT`).  No row is dropped. -/
def load_casualties (raw : List RawCasRow) : List CasReport :=
  raw.map fun r => ⟨parseDate r.report_date, r.killed_cum, r.injured_cum⟩

/-- Two raw rows, the second with an unparseable date string: the
counterexample input for C8. -/
def raw8 : List RawCasRow :=
  [⟨"2024-01-01".toList, 10, 0⟩, ⟨"bad".toList, 15, 0⟩]

/-- Counterexample to C8: an entry whose date string cannot be parsed is
NOT dropped — the returned sequence still has both entries, the second
with a `NaT` date, so the output does not contain only entries with
successfully parsed dates. -/
theorem unparseable_dates_kept_counterexample :
    (load_casualties raw8).length = 2 ∧
    ¬ ∀ r ∈ load_casualties raw8, r.report_date.isSome = true := by decide

/-- C8 (amended): `load_data` keeps every daily-report entry; an entry
whose date string cannot be parsed is retained with a `NaT` (`none`) date
rather than dropped, so the output length always equals the input length
and entry `i`'s date is exactly the coercion of input `i`'s date
string. -/
theorem load_keeps_rows (raw : List RawCasRow) :
    (load_casualties raw).length = raw.length ∧
    ∀ i, i < raw.length →
      ((load_casualties raw).getD i ⟨none, 0, 0⟩).report_date
        = parseDate ((raw.getD i ⟨[], 0, 0⟩).report_date) := by
  refine ⟨by simp [load_casualties], ?_⟩
  intro i hi
  have hi' : i < (load_casualties raw).length := by
    simpa [load_casualties] using hi
  rw [List.getD_eq_getElem?_getD, List.getD_eq_getElem?_getD,
    List.getElem?_eq_getElem hi, List.getElem?_eq_getElem hi']
  simp [load_casualties]

/-- Witness for C8 (amended) at the counterexample rows: both are kept and
the bad date of row 1 is coerced to `none`. -/
theorem load_keeps_rows_witness :
    (load_casualties raw8).length = raw8.length ∧ 1 < raw8.length ∧
    ((load_casualties raw8).getD 1 ⟨none, 0, 0⟩).report_date
      = parseDate ((raw8.getD 1 ⟨[], 0, 0⟩).report_date) :=
  ⟨(load_keeps_rows raw8).1, by decide, (load_keeps_rows raw8).2 1 (by decide)⟩

/-- `age_counts = df_killed['age'].dropna().astype(int)` (dashboard.py
line 89): the known ages, in row order; `astype(int)` is the identity on
the integral ages modelled here, and no clamping of any kind happens. -/
def computeAgeHistogramInput (ks : List KilledRecord) : List Int :=
  ks.filterMap (·.age)

/-- One record aged 150: the counterexample input for C9. -/
def ks9 : List KilledRecord := [⟨some 150, Sex.m⟩]

/-- Counterexample to C9: an out-of-range age is passed through unchanged,
not truncated or validated into `[0, 110]` — that range only appears in
the chart's display settings. -/
theorem age_histogram_counterexample :
    computeAgeHistogramInput ks9 = [150] ∧
    ¬ ∀ a ∈ computeAgeHistogramInput ks9, a ≤ 110 := by decide

/-- C9 (amended): the histogram input is exactly the sequence obtained by
keeping, in insertion order, the records whose age is known and reading
off their ages unchanged (records with unknown age excluded); no age is
truncated into `[0, 110]` and no age errors.  The first conjunct is a full
sequence equality, so it fixes order and multiplicity, not just
membership. -/
theorem age_histogram_passthrough (ks : List KilledRecord) :
    computeAgeHistogramInput ks
      = ((ks.filter fun r => r.age.isSome).map fun r => r.age.getD 0) ∧
    (computeAgeHistogramInput ks).length = ks.countP (fun r => r.age.isSome) ∧
    ∀ a : Int, a ∈ computeAgeHistogramInput ks ↔ ∃ r ∈ ks, r.age = some a := by
  refine ⟨?_, ?_, ?_⟩
  · induction ks with
    | nil => rfl
    | cons r rest ih =>
      cases hd : r.age with
      | none =>
        simpa [computeAgeHistogramInput, List.filterMap_cons, List.filter_cons, hd]
          using ih
      | some a =>
        simpa [computeAgeHistogramInput, List.filterMap_cons, List.filter_cons, hd]
          using ih
  · induction ks with
    | nil => rfl
    | cons r rest ih =>
      cases hd : r.age with
      | none => simpa [computeAgeHistogramInput, hd, List.countP_cons] using ih
      | some a => simpa [computeAgeHistogramInput, hd, List.countP_cons] using ih
  · intro a
    simp [computeAgeHistogramInput, List.mem_filterMap]

/-- Witness for C9 (amended) on one known and one unknown age: the output
is the one-element sequence `[5]`. -/
theorem age_histogram_passthrough_witness :
    (computeAgeHistogramInput [⟨some 5, Sex.m⟩, ⟨none, Sex.f⟩]
      = ((([⟨some 5, Sex.m⟩, ⟨none, Sex.f⟩] : List KilledRecord).filter
          fun r => r.age.isSome).map fun r => r.age.getD 0)) ∧
    (computeAgeHistogramInput [⟨some 5, Sex.m⟩, ⟨none, Sex.f⟩]).length
      = ([⟨some 5, Sex.m⟩, ⟨none, Sex.f⟩] : List KilledRecord).countP
          (fun r => r.age.isSome) ∧
    ((5 : Int) ∈ computeAgeHistogramInput [⟨some 5, Sex.m⟩, ⟨none, Sex.f⟩] ↔
      ∃ r ∈ ([⟨some 5, Sex.m⟩, ⟨none, Sex.f⟩] : List KilledRecord),
        r.age = some 5) :=
  ⟨(age_histogram_passthrough [⟨some 5, Sex.m⟩, ⟨none, Sex.f⟩]).1,
    (age_histogram_passthrough [⟨some 5, Sex.m⟩, ⟨none, Sex.f⟩]).2.1,
    (age_histogram_passthrough [⟨some 5, Sex.m⟩, ⟨none, Sex.f⟩]).2.2 5⟩
